import Mathlib

/-!
Verification of the sis.biblioteca API (Node/Express + Supabase) against its
natural-language specification.  The JavaScript sources are shallowly embedded
as executable Lean definitions: pure functions become Lean functions, the
Supabase store becomes explicit list-based state, and route handlers become
state-passing functions returning an HTTP status, a message and the new state.
-/

namespace Biblioteca

/-- Numeric value of an ASCII digit character (JS `Number(c)` for `c` in 0-9). -/
def digitVal (c : Char) : Nat := c.toNat - 48

/-- `cpf.replace(/\D/g, '')` followed by `.split('').map(Number)` from
`validarCPF` (validators.js): keep the decimal digits, as numbers. -/
def cpfDigits (s : String) : List Nat :=
  (s.data.filter Char.isDigit).map digitVal

/-- Check-digit step shared by both verifier digits in `validarCPF`:
`resto = soma % 11; dv = resto < 2 ? 0 : 11 - resto`. -/
def dvCheck (soma : Nat) : Nat :=
  let resto := soma % 11
  if resto < 2 then 0 else 11 - resto

/-- First weighted sum of `validarCPF`: `for i in 0..8: soma += numeros[i] * (10 - i)`. -/
def somaCPF1 (ns : List Nat) : Nat :=
  (List.range 9).foldl (fun acc i => acc + ns.getD i 0 * (10 - i)) 0

/-- Second weighted sum of `validarCPF`: `for i in 0..9: soma += numeros[i] * (11 - i)`. -/
def somaCPF2 (ns : List Nat) : Nat :=
  (List.range 10).foldl (fun acc i => acc + ns.getD i 0 * (11 - i)) 0

/-- `validarCPF` from validators.js, on string inputs.  The guard
`!cpf || typeof cpf !== 'string'` is the identity on the string case except
for `''`, which fails the length test anyway; the regex `/^(\d)\1{10}$/` on an
11-digit string says the string is its first character repeated 11 times. -/
def validarCPF (cpf : String) : Bool :=
  let cpfLimpo := cpfDigits cpf
  if cpfLimpo.length ≠ 11 then false
  else if cpfLimpo = List.replicate 11 (cpfLimpo.headD 0) then false
  else
    let dv1 := dvCheck (somaCPF1 cpfLimpo)
    if cpfLimpo.getD 9 0 ≠ dv1 then false
    else cpfLimpo.getD 10 0 = dvCheck (somaCPF2 cpfLimpo)

/-- The claim's weighted sum for the first check digit: weights 10 down to 2
over the first 9 digits. -/
def specDV1ArgSum (ns : List Nat) : Nat :=
  (List.zipWith (· * ·) (ns.take 9) [10, 9, 8, 7, 6, 5, 4, 3, 2]).sum

/-- The claim's weighted sum for the second check digit: weights 11 down to 2
over the first 10 digits. -/
def specDV2ArgSum (ns : List Nat) : Nat :=
  (List.zipWith (· * ·) (ns.take 10) [11, 10, 9, 8, 7, 6, 5, 4, 3, 2]).sum

/-- The claim's reading of the first check digit. -/
def specDV1 (ns : List Nat) : Nat := dvCheck (specDV1ArgSum ns)

/-- The claim's reading of the second check digit. -/
def specDV2 (ns : List Nat) : Nat := dvCheck (specDV2ArgSum ns)

/-- CPF validity as worded by the specification: after stripping non-digits,
exactly 11 digits, not 11 copies of one digit, and both check digits match. -/
def cpfSpecValida (s : String) : Prop :=
  let ds := cpfDigits s
  ds.length = 11 ∧ (¬ ∃ d, ds = List.replicate 11 d) ∧
    ds.getD 9 0 = specDV1 ds ∧ ds.getD 10 0 = specDV2 ds

instance (s : String) : Decidable (cpfSpecValida s) := by
  unfold cpfSpecValida
  have : Decidable (∃ d, cpfDigits s = List.replicate 11 d) := by
    refine decidable_of_iff (cpfDigits s = List.replicate 11 ((cpfDigits s).headD 0)) ?_
    constructor
    · intro h; exact ⟨_, h⟩
    · rintro ⟨d, hd⟩
      have : (cpfDigits s).headD 0 = d := by
        rw [hd]; rfl
      rw [this]; exact hd
  exact instDecidableAnd

theorem exists_eleven (l : List Nat) (h : l.length = 11) :
    ∃ a0 a1 a2 a3 a4 a5 a6 a7 a8 a9 a10,
      l = [a0, a1, a2, a3, a4, a5, a6, a7, a8, a9, a10] :=
  match l, h with
  | [a0, a1, a2, a3, a4, a5, a6, a7, a8, a9, a10], _ =>
    ⟨a0, a1, a2, a3, a4, a5, a6, a7, a8, a9, a10, rfl⟩

theorem range_nine : List.range 9 = [0, 1, 2, 3, 4, 5, 6, 7, 8] := rfl

theorem range_ten : List.range 10 = [0, 1, 2, 3, 4, 5, 6, 7, 8, 9] := rfl

theorem replicate_eleven (d : Nat) :
    List.replicate 11 d = [d, d, d, d, d, d, d, d, d, d, d] := rfl

theorem validarCPF_iff_spec (s : String) : validarCPF s = true ↔ cpfSpecValida s := by
  by_cases hlen : (cpfDigits s).length = 11
  · obtain ⟨a0, a1, a2, a3, a4, a5, a6, a7, a8, a9, a10, hds⟩ := exists_eleven _ hlen
    have hsum1 : somaCPF1 (cpfDigits s) = specDV1ArgSum (cpfDigits s) := by
      rw [hds]; simp [somaCPF1, specDV1ArgSum, range_nine]; ring
    have hsum2 : somaCPF2 (cpfDigits s) = specDV2ArgSum (cpfDigits s) := by
      rw [hds]; simp [somaCPF2, specDV2ArgSum, range_ten]; ring
    have e1 : specDV1 (cpfDigits s) = dvCheck (somaCPF1 (cpfDigits s)) := by
      rw [specDV1, ← hsum1]
    have e2 : specDV2 (cpfDigits s) = dvCheck (somaCPF2 (cpfDigits s)) := by
      rw [specDV2, ← hsum2]
    have hex : (∃ d, cpfDigits s = List.replicate 11 d) ↔
        cpfDigits s = List.replicate 11 ((cpfDigits s).headD 0) := by
      constructor
      · rintro ⟨d, hd⟩
        have hh : (cpfDigits s).headD 0 = d := by rw [hd]; rfl
        rw [hh]; exact hd
      · intro h; exact ⟨_, h⟩
    simp only [validarCPF, cpfSpecValida, hex, e1, e2]
    split_ifs with hL hall h9
    · exact absurd hlen hL
    · exact iff_of_false (by simp) (fun hc => hc.2.1 hall)
    · exact iff_of_false (by simp) (fun hc => h9 hc.2.2.1)
    · have h9' : (cpfDigits s).getD 9 0 = dvCheck (somaCPF1 (cpfDigits s)) := not_not.mp h9
      simp only [decide_eq_true_eq]
      exact ⟨fun h10 => ⟨hlen, hall, h9', h10⟩, fun hc => hc.2.2.2⟩
  · simp only [validarCPF, cpfSpecValida]
    simp [hlen]

theorem validarCPF_replicate (c : Char) (hc : c.isDigit = true) :
    validarCPF (String.mk (List.replicate 11 c)) = false := by
  have hdig : cpfDigits (String.mk (List.replicate 11 c)) =
      List.replicate 11 (digitVal c) := by
    simp [cpfDigits, replicate_eleven, hc]
  rw [validarCPF, hdig]
  simp [replicate_eleven]

/-- C2: `validarCPF` returns true iff, after stripping non-digit characters,
the input has exactly 11 digits, is not 11 copies of one digit, and both check
digits computed by the weighted sums (10…2 over the first 9 digits, 11…2 over
the first 10) match positions 10 and 11; in particular every all-repeated-digit
11-character digit string is rejected. -/
theorem C2_validarCPF_correct :
    (∀ s : String, validarCPF s = true ↔ cpfSpecValida s) ∧
    (∀ c : Char, c.isDigit = true → validarCPF (String.mk (List.replicate 11 c)) = false) :=
  ⟨validarCPF_iff_spec, validarCPF_replicate⟩

theorem C2_validarCPF_correct_witness :
    (validarCPF "12345678909" = true ↔ cpfSpecValida "12345678909") ∧
    validarCPF (String.mk (List.replicate 11 '0')) = false :=
  ⟨C2_validarCPF_correct.1 "12345678909", C2_validarCPF_correct.2 '0' (by decide)⟩

/-! ## Date validation (`validarData`, validators.js) -/

/-- Gregorian leap-year rule, as applied by the JavaScript `Date` calendar. -/
def isLeapYear (y : Nat) : Bool :=
  (y % 4 = 0 && y % 100 ≠ 0) || y % 400 = 0

/-- Length of a month in the calendar used by the JavaScript `Date` object. -/
def daysInMonth (m y : Nat) : Nat :=
  if m = 2 then (if isLeapYear y then 29 else 28)
  else if m = 4 ∨ m = 6 ∨ m = 9 ∨ m = 11 then 30
  else 31

/-- Model of the round trip `new Date(ano, mes - 1, dia)` followed by comparing
`getFullYear/getMonth/getDate` with the parsed triple, for `1 ≤ dia ≤ 31`,
`1 ≤ mes ≤ 12` and a four-digit `ano`: the JavaScript constructor maps year
arguments 0–99 to 1900+year (so those never round-trip), and normalizes a day
beyond the month's end into the following month (changing the getters). -/
def dateRoundTrips (dia mes ano : Nat) : Bool :=
  100 ≤ ano && dia ≤ daysInMonth mes ano

/-- The day group `(0[1-9]|[12][0-9]|3[01])` of the `validarData` regex. -/
def dayChunkOk (c1 c2 : Char) : Bool :=
  (c1 = '0' && '1' ≤ c2 && c2 ≤ '9') ||
  ((c1 = '1' || c1 = '2') && c2.isDigit) ||
  (c1 = '3' && (c2 = '0' || c2 = '1'))

/-- The month group `(0[1-9]|1[0-2])` of the `validarData` regex. -/
def monthChunkOk (c1 c2 : Char) : Bool :=
  (c1 = '0' && '1' ≤ c2 && c2 ≤ '9') ||
  (c1 = '1' && (c2 = '0' || c2 = '1' || c2 = '2'))

/-- The anchored regex `/^(0[1-9]|[12][0-9]|3[01])\/(0[1-9]|1[0-2])\/(\d{4})$/`
of `validarData`. -/
def matchesDDMMYYYY (s : String) : Bool :=
  match s.data with
  | [d1, d2, s1, m1, m2, s2, y1, y2, y3, y4] =>
    s1 = '/' && s2 = '/' && dayChunkOk d1 d2 && monthChunkOk m1 m2 &&
      y1.isDigit && y2.isDigit && y3.isDigit && y4.isDigit
  | _ => false

/-- Day parsed by `data.split('/').map(Number)` for a pattern-matching string. -/
def parseDia (s : String) : Nat :=
  10 * digitVal (s.data.getD 0 '0') + digitVal (s.data.getD 1 '0')

/-- Month parsed by `data.split('/').map(Number)` for a pattern-matching string. -/
def parseMes (s : String) : Nat :=
  10 * digitVal (s.data.getD 3 '0') + digitVal (s.data.getD 4 '0')

/-- Year parsed by `data.split('/').map(Number)` for a pattern-matching string. -/
def parseAno (s : String) : Nat :=
  1000 * digitVal (s.data.getD 6 '0') + 100 * digitVal (s.data.getD 7 '0') +
    10 * digitVal (s.data.getD 8 '0') + digitVal (s.data.getD 9 '0')

/-- `validarData` from validators.js: regex test, then the calendar round trip.
(`!data` only adds the empty string, which the regex already rejects.) -/
def validarData (data : String) : Bool :=
  if matchesDDMMYYYY data then
    dateRoundTrips (parseDia data) (parseMes data) (parseAno data)
  else false

example : validarData "31/01/2024" = true := by decide
example : validarData "32/01/2024" = false := by decide
example : validarData "00/01/2024" = false := by decide
example : validarData "01-01-2024" = false := by decide
example : validarData "" = false := by decide

/-- C3 counterexample: `29/02/0096` matches the `DD/MM/YYYY` pattern and the
year 96 is a Gregorian leap year, yet `validarData` rejects it, because the
calendar constructor maps year arguments 0–99 to 1900+year and the round trip
fails; so 29/02 is *not* accepted in every leap year. -/
theorem C3_counterexample :
    matchesDDMMYYYY "29/02/0096" = true ∧
      isLeapYear (parseAno "29/02/0096") = true ∧
      validarData "29/02/0096" = false := by decide

/-- C3 (amended): for pattern-matching strings, `validarData` returns true iff
the parsed triple round-trips through the calendar construction unchanged; for
years of at least 100, 29/02 is accepted exactly in leap years (29/02/2024 and
29/02/2000 valid, 29/02/2023 and 29/02/1900 invalid); non-matching strings are
always rejected. -/
theorem C3_validarData_correct :
    (∀ s, matchesDDMMYYYY s = true →
        (validarData s = true ↔
          dateRoundTrips (parseDia s) (parseMes s) (parseAno s) = true)) ∧
    (∀ s, matchesDDMMYYYY s = true → parseDia s = 29 → parseMes s = 2 →
        100 ≤ parseAno s →
        (validarData s = true ↔ isLeapYear (parseAno s) = true)) ∧
    validarData "29/02/2024" = true ∧ validarData "29/02/2023" = false ∧
    validarData "29/02/2000" = true ∧ validarData "29/02/1900" = false ∧
    (∀ s, matchesDDMMYYYY s = false → validarData s = false) := by
  refine ⟨?_, ?_, by decide, by decide, by decide, by decide, ?_⟩
  · intro s hm
    rw [validarData, if_pos hm]
  · intro s hm hd hmes hano
    rw [validarData, if_pos hm, dateRoundTrips, hd, hmes]
    cases hl : isLeapYear (parseAno s) <;> simp [daysInMonth, hl, hano]
  · intro s hm
    rw [validarData, if_neg]
    simp [hm]

theorem C3_validarData_correct_witness :
    validarData "29/02/2024" = true ↔ isLeapYear (parseAno "29/02/2024") = true :=
  C3_validarData_correct.2.1 "29/02/2024" (by decide) (by decide) (by decide) (by decide)

/-! ## Remaining validators and sanitizers (validators.js) -/

/-- `validarCEP` regex `/^\d{5}-?\d{3}$/` on string input. -/
def validarCEPStr (s : String) : Bool :=
  match s.data with
  | [a, b, c, d, e, f, g, h] => [a, b, c, d, e, f, g, h].all Char.isDigit
  | [a, b, c, d, e, x, f, g, h] =>
    [a, b, c, d, e].all Char.isDigit && x = '-' && [f, g, h].all Char.isDigit
  | _ => false

/-- `validarEmail` regex `/^[^\s@]+@[^\s@]+\.[^\s@]+$/` on string input: exactly
one `@`, a non-empty whitespace-free local part, and a whitespace-free domain
with a dot that is neither its first nor its last character. -/
def validarEmailStr (s : String) : Bool :=
  match s.data.splitOn '@' with
  | [localPart, domain] =>
    !localPart.isEmpty && localPart.all (fun c => !c.isWhitespace) &&
      domain.all (fun c => !c.isWhitespace) && ((domain.drop 1).dropLast).contains '.'
  | _ => false

/-- JS `String.prototype.trim`: drop leading and trailing whitespace. -/
def strTrim (s : String) : String :=
  String.mk (((s.data.dropWhile Char.isWhitespace).reverse.dropWhile
    Char.isWhitespace).reverse)

/-- JS `String.prototype.toLowerCase` on the modelled (ASCII) alphabet. -/
def strToLower (s : String) : String :=
  String.mk (s.data.map Char.toLower)

/-- JS `String.prototype.split(sep)` for a one-character separator. -/
def strSplitOnChar (c : Char) (s : String) : List String :=
  (s.data.splitOn c).map String.mk

/-- `sanitizarEntrada` on string input: strip `<`, `>`, `"` and the apostrophe,
then trim. -/
def sanitizarEntrada (s : String) : String :=
  strTrim (String.mk (s.data.filter
    (fun c => c != '<' && c != '>' && c != '"' && c != '\'')))

/-- Remove every occurrence of `pat` (JS `replace(pat_regex, '')`, scanning
left to right without revisiting removed text); fueled so that the kernel can
evaluate it. -/
def removeAllSubFuel (pat : List Char) : Nat → List Char → List Char
  | 0, cs => cs
  | _ + 1, [] => []
  | fuel + 1, c :: rest =>
    if (c :: rest).take pat.length = pat ∧ pat ≠ [] then
      removeAllSubFuel pat fuel ((c :: rest).drop pat.length)
    else c :: removeAllSubFuel pat fuel rest

/-- Remove every occurrence of the substring `pat` from `s`. -/
def strRemoveAll (pat s : String) : String :=
  String.mk (removeAllSubFuel pat.data s.data.length s.data)

/-- JS `\w` (word character) used by the `\b` boundaries of the keyword regex. -/
def isWordChar (c : Char) : Bool := c.isAlphanum || c = '_'

def sqlKeywords : List String :=
  ["drop", "union", "select", "insert", "delete", "update", "alter", "create", "truncate"]

/-- `replace(/\b(drop|union|...)\b/gi, '')`: a maximal word-character run equal
(case-insensitively) to one of the keywords is removed whole; keywords embedded
in longer words have no boundary and are kept. -/
def removeSQLKeywords (s : String) : String :=
  let chunks := s.data.splitBy (fun a b => isWordChar a == isWordChar b)
  String.mk (List.flatten (chunks.filter (fun ch =>
    !(isWordChar (ch.headD ' ') && sqlKeywords.contains (strToLower (String.mk ch))))))

/-- `sanitizarSQLInjection` on string input: general sanitization, then removal
of `--`, `/*`, `*/` and `;`, then whole-word keyword removal, then trim. -/
def sanitizarSQLInjectionStr (s : String) : String :=
  let texto := sanitizarEntrada s
  strTrim (removeSQLKeywords
    (strRemoveAll ";" (strRemoveAll "*/" (strRemoveAll "/*" (strRemoveAll "--" texto)))))

example : sanitizarSQLInjectionStr "'; DROP TABLE clientes; --" = "TABLE clientes" := by decide
example : validarCEPStr "12345-678" = true := by decide
example : validarCEPStr "12345678" = true := by decide
example : validarCEPStr "1234-5678" = false := by decide
example : validarEmailStr "a@b.co" = true := by decide
example : validarEmailStr "a@b" = false := by decide
example : validarEmailStr "a b@c.d" = false := by decide

/-! ## JavaScript dynamic values

The validation library is documented over arbitrary JavaScript inputs, so the
JS-facing entry points are embedded over a small dynamic-value type; a thrown
`TypeError` is an `Except.error`. -/

inductive JSVal where
  | str (s : String)
  | num (n : Int)
  | bool (b : Bool)
  | null
  | undef
deriving DecidableEq, Repr

/-- JavaScript truthiness of the modelled values. -/
def JSVal.truthy : JSVal → Bool
  | .str s => s != ""
  | .num n => n != 0
  | .bool b => b
  | .null => false
  | .undef => false

/-- JavaScript `String(v)` for the modelled values. -/
def JSVal.toJSString : JSVal → String
  | .str s => s
  | .num n => toString n
  | .bool b => if b then "true" else "false"
  | .null => "null"
  | .undef => "undefined"

/-- The `if (!x || typeof x !== 'string') return false;` guard shared by
`validarCPF`, `validarData`, `validarCEP` and `validarEmail`. -/
def validatorJS (f : String → Bool) (v : JSVal) : Except String JSVal :=
  if !v.truthy then .ok (.bool false)
  else match v with
    | .str s => .ok (.bool (f s))
    | _ => .ok (.bool false)

/-- `validarCPF` entry point. -/
def validarCPFJS : JSVal → Except String JSVal := validatorJS validarCPF

/-- `validarData` entry point. -/
def validarDataJS : JSVal → Except String JSVal := validatorJS validarData

/-- `validarCEP` entry point. -/
def validarCEPJS : JSVal → Except String JSVal := validatorJS validarCEPStr

/-- `validarEmail` entry point. -/
def validarEmailJS : JSVal → Except String JSVal := validatorJS validarEmailStr

/-- `validarComprimento` entry point; `mx = none` models the default `Infinity`. -/
def validarComprimentoJS (v : JSVal) (mn : Nat) (mx : Option Nat) : Except String JSVal :=
  match v with
  | .str s =>
    .ok (.bool (decide (mn ≤ s.length) &&
      (match mx with | none => true | some m => decide (s.length ≤ m))))
  | _ => .ok (.bool false)

/-- `formatarData` entry point: `if (!data) return null;` then
`data.split('/')` (a TypeError on truthy non-strings) and template
interpolation (missing destructured parts interpolate as `undefined`). -/
def formatarDataJS (v : JSVal) : Except String JSVal :=
  if !v.truthy then .ok .null
  else match v with
    | .str s =>
      let parts := strSplitOnChar '/' s
      .ok (.str ((parts.getD 2 "undefined") ++ "-" ++ (parts.getD 1 "undefined") ++
        "-" ++ (parts.getD 0 "undefined")))
    | _ => .error "TypeError"

/-- `sanitizarEntrada` entry point: non-strings are returned unchanged. -/
def sanitizarEntradaJS (v : JSVal) : Except String JSVal :=
  match v with
  | .str s => .ok (.str (sanitizarEntrada s))
  | _ => .ok v

/-- `sanitizarSQLInjection` entry point: null/undefined become the empty
string; anything else is coerced with `String()` and sanitized. -/
def sanitizarSQLInjectionJS (v : JSVal) : Except String JSVal :=
  match v with
  | .null => .ok (.str "")
  | .undef => .ok (.str "")
  | w => .ok (.str (sanitizarSQLInjectionStr w.toJSString))

/-- C7 counterexample: the claim fails on the code in two places.
`sanitizarEntrada` applied to the non-string `42` returns `42` unchanged — not
an empty string, not even a string — and `formatarData` applied to the truthy
non-string `5` throws a TypeError (`data.split` is not a function) instead of
returning a value. -/
theorem C7_counterexample :
    sanitizarEntradaJS (.num 42) = .ok (.num 42) ∧
      formatarDataJS (.num 5) = .error "TypeError" :=
  ⟨rfl, rfl⟩

/-- C7 (amended): every validator returns a boolean without throwing and treats
absent or wrong-typed input as invalid; `sanitizarSQLInjection` always returns
a string without throwing, mapping null/undefined to the empty string;
`sanitizarEntrada` never throws but returns non-string input unchanged (not as
an empty string); and `formatarData` returns an absent value on falsy input, a
string on truthy string input, and throws a TypeError on truthy non-string
input. -/
theorem C7_validation_library_totality :
    (∀ v : JSVal,
      (∃ b, validarCPFJS v = .ok (.bool b)) ∧
      ((∀ s, v ≠ .str s) → validarCPFJS v = .ok (.bool false))) ∧
    (∀ v : JSVal,
      (∃ b, validarDataJS v = .ok (.bool b)) ∧
      ((∀ s, v ≠ .str s) → validarDataJS v = .ok (.bool false))) ∧
    (∀ v : JSVal,
      (∃ b, validarCEPJS v = .ok (.bool b)) ∧
      ((∀ s, v ≠ .str s) → validarCEPJS v = .ok (.bool false))) ∧
    (∀ v : JSVal,
      (∃ b, validarEmailJS v = .ok (.bool b)) ∧
      ((∀ s, v ≠ .str s) → validarEmailJS v = .ok (.bool false))) ∧
    (∀ (v : JSVal) (mn : Nat) (mx : Option Nat),
      (∃ b, validarComprimentoJS v mn mx = .ok (.bool b)) ∧
      ((∀ s, v ≠ .str s) → validarComprimentoJS v mn mx = .ok (.bool false))) ∧
    (∀ s, sanitizarEntradaJS (.str s) = .ok (.str (sanitizarEntrada s))) ∧
    (∀ v : JSVal, (∀ s, v ≠ .str s) → sanitizarEntradaJS v = .ok v) ∧
    (∀ v : JSVal, ∃ s, sanitizarSQLInjectionJS v = .ok (.str s)) ∧
    (sanitizarSQLInjectionJS .null = .ok (.str "") ∧
      sanitizarSQLInjectionJS .undef = .ok (.str "")) ∧
    (∀ v : JSVal, v.truthy = false → formatarDataJS v = .ok .null) ∧
    (∀ s : String, s ≠ "" → ∃ t, formatarDataJS (.str s) = .ok (.str t)) ∧
    (∀ v : JSVal, v.truthy = true → (∀ s, v ≠ .str s) →
      formatarDataJS v = .error "TypeError") := by
  have hval : ∀ (f : String → Bool) (v : JSVal),
      (∃ b, validatorJS f v = .ok (.bool b)) ∧
      ((∀ s, v ≠ .str s) → validatorJS f v = .ok (.bool false)) := by
    intro f v
    constructor
    · cases v with
      | str s =>
        cases h : (JSVal.str s).truthy
        · exact ⟨false, by simp [validatorJS, h]⟩
        · exact ⟨f s, by simp [validatorJS, h]⟩
      | num n =>
        cases h : (JSVal.num n).truthy <;> exact ⟨false, by simp [validatorJS, h]⟩
      | bool b => cases b <;> exact ⟨false, rfl⟩
      | null => exact ⟨false, rfl⟩
      | undef => exact ⟨false, rfl⟩
    · intro hv
      cases v with
      | str s => exact absurd rfl (hv s)
      | num n => cases h : (JSVal.num n).truthy <;> simp [validatorJS, h]
      | bool b => cases b <;> rfl
      | null => rfl
      | undef => rfl
  refine ⟨hval validarCPF, hval validarData, hval validarCEPStr, hval validarEmailStr,
    ?_, fun _ => rfl, ?_, ?_, ⟨rfl, rfl⟩, ?_, ?_, ?_⟩
  · intro v mn mx
    cases v <;> simp [validarComprimentoJS]
  · intro v hv
    cases v with
    | str s => exact absurd rfl (hv s)
    | num n => rfl
    | bool b => rfl
    | null => rfl
    | undef => rfl
  · intro v
    cases v <;> exact ⟨_, rfl⟩
  · intro v hv
    cases v <;> simp_all [formatarDataJS, JSVal.truthy]
  · intro s hs
    have ht : JSVal.truthy (.str s) = true := by
      simp [JSVal.truthy, hs]
    refine ⟨(strSplitOnChar '/' s).getD 2 "undefined" ++ "-" ++
      (strSplitOnChar '/' s).getD 1 "undefined" ++ "-" ++
      (strSplitOnChar '/' s).getD 0 "undefined", ?_⟩
    simp [formatarDataJS, ht]
  · intro v hv hvs
    cases v with
    | str s => exact absurd rfl (hvs s)
    | num n => simp [formatarDataJS, hv]
    | bool b => simp [formatarDataJS, hv]
    | null => simp [JSVal.truthy] at hv
    | undef => simp [JSVal.truthy] at hv

theorem C7_validation_library_totality_witness :
    validarCPFJS .null = .ok (.bool false) :=
  (C7_validation_library_totality.1 .null).2 (fun _ h => JSVal.noConfusion h)

/-! ## Token handling (auth/jwt.js) and authentication middleware
(auth/middleware.js) -/

/-- `extrairTokenDoHeader`: `null` unless the header exists and starts with the
case-sensitive prefix `"Bearer "`; otherwise the remainder after those 7
characters. -/
def extrairTokenDoHeader (authHeader : Option String) : Option String :=
  match authHeader with
  | none => none
  | some h =>
    if ("Bearer ".data).isPrefixOf h.data then some (String.mk (h.data.drop 7))
    else none

/-- Outcome of `verificarAccessToken`: decoded payload, or one of the
distinguished failures (`Token expirado`, `Token inválido`, anything else). -/
inductive TokenVerify where
  | ok (id email role : JSVal)
  | expired
  | invalid
  | other (msg : String)

/-- An HTTP rejection produced by the middleware. -/
structure AuthResp where
  status : Nat
  message : String
  errorCode : String
deriving DecidableEq, Repr

/-- Result of `autenticarToken`: either an error response or `next()` with
`req.usuario = {id, email, role}` attached. -/
inductive AuthOutcome where
  | reject (r : AuthResp)
  | accept (id email role : JSVal)
deriving DecidableEq, Repr

/-- JS truthiness of the extracted token (`null` and `''` are falsy). -/
def tokenTruthy : Option String → Bool
  | none => false
  | some s => s != ""

/-- `autenticarToken` from auth/middleware.js, over an abstract verifier
standing for `verificarAccessToken`. -/
def autenticarToken (verify : String → TokenVerify) (authHeader : Option String) :
    AuthOutcome :=
  let token := extrairTokenDoHeader authHeader
  if !tokenTruthy token then
    .reject ⟨401, "Acesso negado. Token não fornecido.", "NO_TOKEN"⟩
  else
    match verify (token.getD "") with
    | .ok i e r => .accept i e r
    | .expired => .reject ⟨401, "Token expirado. Faça login novamente.", "TOKEN_EXPIRED"⟩
    | .invalid => .reject ⟨403, "Token inválido.", "INVALID_TOKEN"⟩
    | .other msg => .reject ⟨500, "Erro ao verificar token.", msg⟩

/-- C9: any Authorization header that does not start with the exact
case-sensitive `"Bearer "` prefix, and also the header `"Bearer "` itself
(empty token), yields the same `401 NO_TOKEN` rejection as a missing header,
for every verifier — in particular it is never the `403 INVALID_TOKEN`
response. -/
theorem C9_no_token_paths (verify : String → TokenVerify) :
    autenticarToken verify none =
      .reject ⟨401, "Acesso negado. Token não fornecido.", "NO_TOKEN"⟩ ∧
    (∀ s : String, ¬(("Bearer ".data).isPrefixOf s.data = true) →
      autenticarToken verify (some s) = autenticarToken verify none) ∧
    autenticarToken verify (some "Bearer ") = autenticarToken verify none := by
  refine ⟨rfl, ?_, ?_⟩
  · intro s hs
    simp only [autenticarToken, extrairTokenDoHeader]
    rw [if_neg hs]
  · rfl

theorem C9_no_token_paths_witness :
    autenticarToken (fun _ => TokenVerify.invalid) (some "Token abc") =
      autenticarToken (fun _ => TokenVerify.invalid) none :=
  (C9_no_token_paths (fun _ => TokenVerify.invalid)).2.1 "Token abc" (by decide)

/-- A user record as consumed by `gerarParTokens` (auth/jwt.js). -/
structure Usuario where
  id : JSVal
  email : JSVal
  role : JSVal

/-- Payload signed into an access token. -/
structure AccessPayload where
  id : JSVal
  email : JSVal
  role : JSVal
deriving DecidableEq, Repr

/-- Payload signed into a refresh token. -/
structure RefreshPayload where
  id : JSVal
  email : JSVal
deriving DecidableEq, Repr

/-- `gerarParTokens`: the access payload is `{id, email, role: usuario.role ||
'user'}` and the refresh payload is `{id, email}`.  Signing is abstracted away:
a token is represented by its signed payload. -/
def gerarParTokens (usuario : Usuario) : AccessPayload × RefreshPayload :=
  let payload : AccessPayload :=
    ⟨usuario.id, usuario.email,
      if usuario.role.truthy then usuario.role else .str "user"⟩
  (payload, ⟨usuario.id, usuario.email⟩)

/-- C10: the access token's role is the record's role when truthy and the
literal `'user'` otherwise (so it is always a truthy value, never absent), and
the refresh token's payload is exactly `{id, email}` — it carries no role. -/
theorem C10_gerarParTokens_roles (u : Usuario) :
    (u.role.truthy = true → (gerarParTokens u).1.role = u.role) ∧
    (u.role.truthy = false → (gerarParTokens u).1.role = .str "user") ∧
    (gerarParTokens u).1.role.truthy = true ∧
    (gerarParTokens u).2 = ⟨u.id, u.email⟩ := by
  refine ⟨?_, ?_, ?_, rfl⟩
  · intro h; simp [gerarParTokens, h]
  · intro h; simp [gerarParTokens, h]
  · cases h : u.role.truthy
    · have hr : (gerarParTokens u).1.role = .str "user" := by simp [gerarParTokens, h]
      rw [hr]; rfl
    · have hr : (gerarParTokens u).1.role = u.role := by simp [gerarParTokens, h]
      rw [hr, h]

theorem C10_gerarParTokens_roles_witness :
    (gerarParTokens ⟨.num 1, .str "a@b.com", .null⟩).1.role = .str "user" :=
  (C10_gerarParTokens_roles ⟨.num 1, .str "a@b.com", .null⟩).2.1 rfl

/-! ## The Supabase-backed store and the route handlers (part_001) -/

/-- A `cliente` row, restricted to the columns the embedded routes touch. -/
structure Cliente where
  ClienteID : Int
  CPF : String
  Nome : String
  Sobrenome : String
deriving DecidableEq, Repr

/-- A `livro` row, restricted to the columns the embedded routes touch. -/
structure Livro where
  LivroID : Int
  NomeLivro : String
  QuantidadeDisponivel : Int
deriving DecidableEq, Repr

/-- A `reservas` row. -/
structure Reserva where
  ReservaID : Int
  ClienteID : Int
  LivroID : Int
  DataRetirada : Option String
  DataPrevistaEntrega : Option String
  DataEntrega : Option String
  FormaRetirada : Option String
  QuantidadeReservada : Int
  Observacao : Option String
  Status : Option String
deriving DecidableEq, Repr

/-- The external relational store as seen by the embedded routes. -/
structure Store where
  clientes : List Cliente
  livros : List Livro
  reservas : List Reserva
deriving DecidableEq, Repr

/-- An HTTP response envelope (`respostaSucesso` / `respostaErro`): status,
`message`, and the optional `error` detail. -/
structure Resp where
  status : Nat
  message : String
  error : Option String
deriving DecidableEq, Repr

/-- Supabase `.maybeSingle()`: `null` for zero rows, the row for one, an error
for several. -/
def maybeSingle {α : Type} (rows : List α) : Except String (Option α) :=
  match rows with
  | [] => .ok none
  | [a] => .ok (some a)
  | _ => .error "JSON object requested, multiple (or no) rows returned"

/-- Supabase `.single()`: the row for exactly one, an error otherwise. -/
def singleRow {α : Type} (rows : List α) : Except String α :=
  match rows with
  | [a] => .ok a
  | _ => .error "JSON object requested, multiple (or no) rows returned"

/-- Partial model of JS `Number(s)` (as consulted through `isNaN(s)`),
restricted to optionally negated decimal integer numerals — the shape the
embedded routes' `:id` parameters take; all other strings are treated as NaN
(`none`). -/
def jsNumberInt (s : String) : Option Int :=
  let core : List Char → Option Int := fun ds =>
    if ds ≠ [] ∧ ds.all Char.isDigit then
      some (ds.foldl (fun a c => a * 10 + (digitVal c : Int)) 0)
    else none
  match s.data with
  | '-' :: rest => (core rest).map (fun n => -n)
  | ds => core ds

/-- Whether `pat` occurs as a contiguous run inside the second list. -/
def isInfixOfChars (pat : List Char) : List Char → Bool
  | [] => pat.isEmpty
  | c :: rest => pat.isPrefixOf (c :: rest) || isInfixOfChars pat rest

/-- Postgres `ilike '%needle%'`: case-insensitive substring match. -/
def containsCI (hay needle : String) : Bool :=
  isInfixOfChars ((strToLower needle).data) ((strToLower hay).data)

/-- `DELETE /cliente/:id` (part_001:1735): numeric-id validation, existence
check via `.single()`, then a hard delete. -/
def deleteCliente (id : String) (st : Store) : Resp × Store :=
  if id = "" ∨ (jsNumberInt id).isNone then (⟨400, "ID de cliente inválido", none⟩, st)
  else
    let n := (jsNumberInt id).getD 0
    match singleRow (st.clientes.filter (fun c => decide (c.ClienteID = n))) with
    | .error _ => (⟨404, "Cliente não encontrado", none⟩, st)
    | .ok _ =>
      (⟨200, "Cliente deletado com sucesso", none⟩,
        { st with clientes := st.clientes.filter (fun c => decide (c.ClienteID ≠ n)) })

/-- The pipeline registered for `DELETE /cliente/:id`.  Although the route's
doc comment reads "Requer autenticação", the registration at part_001:1735
mounts no authentication middleware (`autenticarToken` is never imported into
the server file), so the handler runs identically whatever the Authorization
header carries. -/
def rotaDeleteCliente (_authHeader : Option String) (id : String) (st : Store) :
    Resp × Store :=
  deleteCliente id st

/-- A store with the client the C1 failing input targets. -/
def storeC1 : Store :=
  ⟨[⟨1, "12345678909", "Ana", "Silva"⟩], [], []⟩

/-- C1: the claim demands 401 without an Authorization header and 403 for a
badly signed bearer token on `DELETE /cliente/:id`, but the route mounts no
authentication middleware: the response is independent of the header and the
request succeeds with 200 — never 401 or 403 — contradicting the route's own
"Requer autenticação" comment and the test suite's expectation of 401. -/
theorem C1_auth_not_enforced :
    (∀ h : Option String, rotaDeleteCliente h "1" storeC1 = rotaDeleteCliente none "1" storeC1) ∧
    (rotaDeleteCliente none "1" storeC1).1.status = 200 ∧
    (rotaDeleteCliente (some "Bearer invalid.signature.token") "1" storeC1).1.status ≠ 401 ∧
    (rotaDeleteCliente (some "Bearer invalid.signature.token") "1" storeC1).1.status ≠ 403 :=
  ⟨fun _ => rfl, by decide, by decide, by decide⟩

/-! ## `POST /reservas` (part_001:1067) -/

/-- The request body of `POST /reservas`; every field may be absent. -/
structure ReservaReq where
  CPFReserva : Option String
  NomeLivro : Option String
  LivroID : Option Int
  QntdLivro : Option Int
  DataRetirada : Option String
  DataVolta : Option String
  Entrega : Option String
  Observacao : Option String
deriving Repr

/-- JS `!x?.trim()`: absent, or blank after trimming. -/
def optTrimFilled (o : Option String) : Bool :=
  match o with
  | some s => strTrim s != ""
  | none => false

/-- JS truthiness of an optional number (`0` and absence are falsy). -/
def optIntTruthy (o : Option Int) : Bool :=
  match o with
  | some n => n != 0
  | none => false

/-- JS truthiness of an optional string (`''` and absence are falsy). -/
def optStrTruthy (o : Option String) : Bool :=
  match o with
  | some s => s != ""
  | none => false

/-- The required-fields guard of `POST /reservas`. -/
def reservaCamposFaltando (req : ReservaReq) : Bool :=
  !optTrimFilled req.CPFReserva ||
  (!optTrimFilled req.NomeLivro && !optIntTruthy req.LivroID) ||
  !optIntTruthy req.QntdLivro ||
  !optTrimFilled req.DataRetirada ||
  !optTrimFilled req.DataVolta ||
  !optTrimFilled req.Entrega

/-- `formatarData` on the already-validated path: `DD/MM/YYYY` → `YYYY-MM-DD`. -/
def formatarDataStr (s : String) : String :=
  let parts := strSplitOnChar '/' s
  (parts.getD 2 "") ++ "-" ++ (parts.getD 1 "") ++ "-" ++ (parts.getD 0 "")

/-- `dadosSanitizados.LivroID`: the numeric book id when the raw field is
truthy, else `null`. -/
def livroIdNumDe (req : ReservaReq) : Option Int :=
  if optIntTruthy req.LivroID then some (req.LivroID.getD 0) else none

/-- `dadosSanitizados.NomeLivro`: the sanitized title when the raw field is
truthy, else `null`. -/
def nomeSanDe (req : ReservaReq) : Option String :=
  if optStrTruthy req.NomeLivro then some (sanitizarEntrada (req.NomeLivro.getD ""))
  else none

/-- The client rows matching the sanitized CPF of the request. -/
def clientesCasados (req : ReservaReq) (st : Store) : List Cliente :=
  st.clientes.filter (fun c => c.CPF == sanitizarEntrada (req.CPFReserva.getD ""))

/-- Result of the book-resolution step of `POST /reservas`. -/
inductive BuscaLivro where
  | informe
  | erro (msg : String)
  | naoEncontrado
  | achado (l : Livro)
deriving DecidableEq, Repr

/-- Book resolution of `POST /reservas`: by id when given, else by
case-insensitive partial title match, else the `Informe LivroID ou NomeLivro`
rejection. -/
def buscarLivroReserva (livroIdNum : Option Int) (nomeSan : Option String) (st : Store) :
    BuscaLivro :=
  match livroIdNum with
  | some n =>
    match maybeSingle (st.livros.filter (fun l => decide (l.LivroID = n))) with
    | .error m => .erro m
    | .ok none => .naoEncontrado
    | .ok (some l) => .achado l
  | none =>
    match nomeSan with
    | some nome =>
      if nome != "" then
        match maybeSingle (st.livros.filter (fun l => containsCI l.NomeLivro nome)) with
        | .error m => .erro m
        | .ok none => .naoEncontrado
        | .ok (some l) => .achado l
      else .informe
    | none => .informe

/-- The reservation row inserted on the success path (the store assigns the
next free id). -/
def novaReserva (req : ReservaReq) (st : Store) (cliente : Cliente) (livro : Livro) :
    Reserva where
  ReservaID := (st.reservas.map (fun r => r.ReservaID)).foldl max 0 + 1
  ClienteID := cliente.ClienteID
  LivroID := livro.LivroID
  DataRetirada := some (formatarDataStr (req.DataRetirada.getD ""))
  DataPrevistaEntrega := some (formatarDataStr (req.DataVolta.getD ""))
  DataEntrega := none
  FormaRetirada := some (sanitizarEntrada (req.Entrega.getD ""))
  QuantidadeReservada := req.QntdLivro.getD 0
  Observacao := req.Observacao.map sanitizarEntrada
  Status := some "ativa"

/-- The `POST /reservas` handler. -/
def postReservas (req : ReservaReq) (st : Store) : Resp × Store :=
  if reservaCamposFaltando req then
    (⟨400, "Todos os campos obrigatórios devem ser preenchidos", none⟩, st)
  else if !validarCPF (req.CPFReserva.getD "") then
    (⟨400, "CPF inválido", none⟩, st)
  else if !validarData (req.DataRetirada.getD "") || !validarData (req.DataVolta.getD "") then
    (⟨400, "Formato de data inválido. Use DD/MM/YYYY", none⟩, st)
  else if req.QntdLivro.getD 0 ≤ 0 then
    (⟨400, "Quantidade deve ser um número maior que 0", none⟩, st)
  else if optIntTruthy req.LivroID && req.LivroID.getD 0 ≤ 0 then
    (⟨400, "LivroID deve ser um número válido", none⟩, st)
  else
    match maybeSingle (clientesCasados req st) with
    | .error _ => (⟨500, "Erro na consulta de cliente", none⟩, st)
    | .ok none => (⟨402, "Cliente não encontrado", none⟩, st)
    | .ok (some cliente) =>
      match buscarLivroReserva (livroIdNumDe req) (nomeSanDe req) st with
      | .informe => (⟨400, "Informe LivroID ou NomeLivro", none⟩, st)
      | .erro _ => (⟨500, "Erro na consulta de livro", none⟩, st)
      | .naoEncontrado => (⟨404, "Livro não encontrado", none⟩, st)
      | .achado livro =>
        if livro.QuantidadeDisponivel < req.QntdLivro.getD 0 then
          (⟨400, "Apenas " ++ toString livro.QuantidadeDisponivel ++
            " livros disponíveis", none⟩, st)
        else
          (⟨201, "Reserva cadastrada com sucesso", none⟩,
            { st with reservas := st.reservas ++ [novaReserva req st cliente livro] })

/-- The conjunction of the input-validation guards of `POST /reservas`. -/
def reservaReqValida (req : ReservaReq) : Bool :=
  !reservaCamposFaltando req &&
  validarCPF (req.CPFReserva.getD "") &&
  validarData (req.DataRetirada.getD "") &&
  validarData (req.DataVolta.getD "") &&
  decide (0 < req.QntdLivro.getD 0) &&
  !(optIntTruthy req.LivroID && decide (req.LivroID.getD 0 ≤ 0))

/-- C4: for a request that passes input validation, `POST /reservas` answers
402 when no client row matches the CPF, 404 when the book resolution (by id,
else by case-insensitive partial title) finds nothing, 400 citing the exact
available count when the requested quantity exceeds it, and otherwise creates
the reservation with status `ativa`. -/
theorem C4_postReservas_flow (req : ReservaReq) (st : Store)
    (hval : reservaReqValida req = true) :
    (clientesCasados req st = [] →
      postReservas req st = (⟨402, "Cliente não encontrado", none⟩, st)) ∧
    (∀ c, clientesCasados req st = [c] →
      (buscarLivroReserva (livroIdNumDe req) (nomeSanDe req) st = .naoEncontrado →
        postReservas req st = (⟨404, "Livro não encontrado", none⟩, st)) ∧
      (∀ l, buscarLivroReserva (livroIdNumDe req) (nomeSanDe req) st = .achado l →
        (l.QuantidadeDisponivel < req.QntdLivro.getD 0 →
          postReservas req st =
            (⟨400, "Apenas " ++ toString l.QuantidadeDisponivel ++
              " livros disponíveis", none⟩, st)) ∧
        (req.QntdLivro.getD 0 ≤ l.QuantidadeDisponivel →
          postReservas req st =
            (⟨201, "Reserva cadastrada com sucesso", none⟩,
              { st with reservas := st.reservas ++ [novaReserva req st c l] }) ∧
          (novaReserva req st c l).Status = some "ativa"))) := by
  have hv := hval
  simp only [reservaReqValida, Bool.and_eq_true] at hv
  obtain ⟨⟨⟨⟨⟨h1, h2⟩, h3⟩, h4⟩, h5⟩, h6⟩ := hv
  have h1' : reservaCamposFaltando req = false := by simpa using h1
  have h5' : ¬(req.QntdLivro.getD 0 ≤ 0) := by
    have h5n := of_decide_eq_true h5
    omega
  have h6' : (optIntTruthy req.LivroID && decide (req.LivroID.getD 0 ≤ 0)) = false := by
    cases hb : (optIntTruthy req.LivroID && decide (req.LivroID.getD 0 ≤ 0))
    · rfl
    · rw [hb] at h6
      exact absurd h6 (by decide)
  constructor
  · intro hcli
    simp only [postReservas, h1', h2, h3, h4, h6', if_neg h5', hcli, maybeSingle]
    simp
  · intro c hcli
    constructor
    · intro hbusca
      simp only [postReservas, h1', h2, h3, h4, h6', if_neg h5', hcli, maybeSingle, hbusca]
      simp
    · intro l hbusca
      constructor
      · intro hlt
        simp only [postReservas, h1', h2, h3, h4, h6', if_neg h5', hcli, maybeSingle, hbusca]
        simp [if_pos hlt]
      · intro hle
        have hnlt : ¬(l.QuantidadeDisponivel < req.QntdLivro.getD 0) := by omega
        refine ⟨?_, rfl⟩
        simp only [postReservas, h1', h2, h3, h4, h6', if_neg h5', hcli, maybeSingle, hbusca]
        simp [if_neg hnlt]

theorem C4_postReservas_flow_witness :
    postReservas
        ⟨some "12345678909", none, some 1, some 2, some "01/03/2024",
          some "10/03/2024", some "Retirada", none⟩
        ⟨[⟨7, "12345678909", "Ana", "Silva"⟩], [⟨1, "Dom Casmurro", 5⟩], []⟩ =
      (⟨201, "Reserva cadastrada com sucesso", none⟩,
        { clientes := [⟨7, "12345678909", "Ana", "Silva"⟩],
          livros := [⟨1, "Dom Casmurro", 5⟩],
          reservas := [novaReserva
            ⟨some "12345678909", none, some 1, some 2, some "01/03/2024",
              some "10/03/2024", some "Retirada", none⟩
            ⟨[⟨7, "12345678909", "Ana", "Silva"⟩], [⟨1, "Dom Casmurro", 5⟩], []⟩
            ⟨7, "12345678909", "Ana", "Silva"⟩ ⟨1, "Dom Casmurro", 5⟩] }) ∧
      (novaReserva
        ⟨some "12345678909", none, some 1, some 2, some "01/03/2024",
          some "10/03/2024", some "Retirada", none⟩
        ⟨[⟨7, "12345678909", "Ana", "Silva"⟩], [⟨1, "Dom Casmurro", 5⟩], []⟩
        ⟨7, "12345678909", "Ana", "Silva"⟩ ⟨1, "Dom Casmurro", 5⟩).Status = some "ativa" := by
  have h := (((C4_postReservas_flow
      ⟨some "12345678909", none, some 1, some 2, some "01/03/2024",
        some "10/03/2024", some "Retirada", none⟩
      ⟨[⟨7, "12345678909", "Ana", "Silva"⟩], [⟨1, "Dom Casmurro", 5⟩], []⟩
      (by decide)).2
    ⟨7, "12345678909", "Ana", "Silva"⟩ (by decide)).2
    ⟨1, "Dom Casmurro", 5⟩ (by decide)).2 (by decide)
  simpa using h

/-! ## `DELETE /reservas/:id` (part_001:1561) -/

/-- The `DELETE /reservas/:id` handler: numeric-id validation, `.single()`
lookup (404 when it fails), then an update setting `Status` to `cancelada` on
the matching rows — no row is ever removed. -/
def deleteReservas (id : String) (st : Store) : Resp × Store :=
  if id = "" ∨ (jsNumberInt id).isNone then (⟨400, "ID de reserva inválido", none⟩, st)
  else
    let n := (jsNumberInt id).getD 0
    match singleRow (st.reservas.filter (fun r => decide (r.ReservaID = n))) with
    | .error _ => (⟨404, "Reserva não encontrada", none⟩, st)
    | .ok _ =>
      (⟨200, "Reserva cancelada com sucesso", none⟩,
        { st with reservas := st.reservas.map (fun r =>
            if r.ReservaID = n then { r with Status := some "cancelada" } else r) })

/-- C6: with a numeric id, `DELETE /reservas/:id` answers 404 and leaves the
store untouched when no reservation has that id; when exactly one does, it
answers 200 and the only change is that row's `Status` becoming `cancelada` —
the row count, every other field, and the other tables are unchanged. -/
theorem C6_deleteReservas_soft_cancel (id : String) (n : Int) (st : Store)
    (hn : jsNumberInt id = some n) :
    ((∀ r ∈ st.reservas, r.ReservaID ≠ n) →
      deleteReservas id st = (⟨404, "Reserva não encontrada", none⟩, st)) ∧
    (∀ r, st.reservas.filter (fun x => decide (x.ReservaID = n)) = [r] →
      (deleteReservas id st).1 = ⟨200, "Reserva cancelada com sucesso", none⟩ ∧
      (deleteReservas id st).2.reservas = st.reservas.map (fun x =>
        if x.ReservaID = n then { x with Status := some "cancelada" } else x) ∧
      (deleteReservas id st).2.reservas.length = st.reservas.length ∧
      (deleteReservas id st).2.clientes = st.clientes ∧
      (deleteReservas id st).2.livros = st.livros) := by
  have hid : ¬(id = "" ∨ (jsNumberInt id).isNone = true) := by
    rintro (h | h)
    · rw [h] at hn
      cases hn
    · simp [hn] at h
  constructor
  · intro habs
    have hfil : st.reservas.filter (fun x => decide (x.ReservaID = n)) = [] := by
      apply List.filter_eq_nil_iff.mpr
      intro r hr
      simpa using habs r hr
    simp only [deleteReservas]
    rw [if_neg hid, hn]
    simp only [Option.getD_some]
    rw [hfil]
    rfl
  · intro r hfil
    simp only [deleteReservas]
    rw [if_neg hid, hn]
    simp only [Option.getD_some]
    rw [hfil]
    refine ⟨rfl, rfl, ?_, rfl, rfl⟩
    show (st.reservas.map (fun x =>
        if x.ReservaID = n then { x with Status := some "cancelada" } else x)).length =
      st.reservas.length
    simp

theorem C6_deleteReservas_soft_cancel_witness :
    (deleteReservas "3"
        ⟨[], [], [⟨3, 7, 1, some "2024-03-01", some "2024-03-10", none,
          some "Retirada", 2, none, some "ativa"⟩]⟩).2.reservas =
      [⟨3, 7, 1, some "2024-03-01", some "2024-03-10", none,
        some "Retirada", 2, none, some "cancelada"⟩] := by
  have h := ((C6_deleteReservas_soft_cancel "3" 3
      ⟨[], [], [⟨3, 7, 1, some "2024-03-01", some "2024-03-10", none,
        some "Retirada", 2, none, some "ativa"⟩]⟩ (by decide)).2
    ⟨3, 7, 1, some "2024-03-01", some "2024-03-10", none,
      some "Retirada", 2, none, some "ativa"⟩ (by decide)).2.1
  rw [h]
  decide

/-! ## `PATCH /multas/:id/pagar` (part_001:2384)

The handler fires a sequence of Supabase `update(..).eq(key, id).select()`
calls; the store's reaction to each is abstracted as a function from the
attempted payload and id-column to an outcome. -/

/-- Outcome of one `update(...).eq(key, id).select()` call: the affected rows
(opaque here) or an error message. -/
inductive UpdResult where
  | ok (rows : List String)
  | fail (msg : String)
deriving DecidableEq, Repr

/-- `message.includes(sub)`. -/
def strContainsSub (sub s : String) : Bool := isInfixOfChars sub.data s.data

/-- `isSchemaColumnError` (part_001:2406): message-pattern matching for
missing-column/schema-cache failures. -/
def isSchemaColumnError (msg : String) : Bool :=
  strContainsSub "Could not find" msg || strContainsSub "schema cache" msg ||
  strContainsSub "does not exist" msg

/-- The combinations tried, in order: each of the two payment-field payloads
(`{DataPagamento, Status}` then `{data_pagamento, status}`) against each of the
four candidate id columns (`MultaID`, `multa_id`, `id`, `ID`). -/
def combosPagar (dataBase : String) : List (List (String × String) × String) :=
  ([[("DataPagamento", dataBase), ("Status", "paga")],
    [("data_pagamento", dataBase), ("status", "paga")]].flatMap
    (fun u => ["MultaID", "multa_id", "id", "ID"].map (fun k => (u, k))))

/-- The nested try-loop of `PATCH /multas/:id/pagar`, carrying `ultimoErro`. -/
def tentarPagar (upd : List (String × String) → String → UpdResult) :
    List (List (String × String) × String) → Option String → Resp
  | [], none => ⟨404, "Multa não encontrada", none⟩
  | [], some msg => ⟨500, "Erro ao marcar multa como paga", some msg⟩
  | (u, k) :: rest, ultimo =>
    match upd u k with
    | .ok [] => tentarPagar upd rest ultimo
    | .ok (_ :: _) => ⟨200, "Multa marcada como paga", none⟩
    | .fail msg =>
      if isSchemaColumnError msg then tentarPagar upd rest (some msg)
      else ⟨500, "Erro ao marcar multa como paga", some msg⟩

/-- The `PATCH /multas/:id/pagar` handler. -/
def patchMultasPagar (id : String) (dataPagamento : Option String)
    (upd : List (String × String) → String → UpdResult) : Resp :=
  if id = "" ∨ (jsNumberInt id).isNone then ⟨400, "ID de multa inválido", none⟩
  else if !optStrTruthy dataPagamento || !validarData (dataPagamento.getD "") then
    ⟨400, "Data de pagamento inválida", none⟩
  else
    tentarPagar upd (combosPagar (formatarDataStr (dataPagamento.getD ""))) none

/-- A combination the loop steps over: it affected no row, or it failed with a
schema-shaped error. -/
def comboPulado (r : UpdResult) : Bool :=
  match r with
  | .ok [] => true
  | .ok (_ :: _) => false
  | .fail msg => isSchemaColumnError msg

theorem tentarPagar_cons (upd : List (String × String) → String → UpdResult)
    (u : List (String × String)) (k : String)
    (rest : List (List (String × String) × String)) (ultimo : Option String) :
    tentarPagar upd ((u, k) :: rest) ultimo =
      (match upd u k with
       | .ok [] => tentarPagar upd rest ultimo
       | .ok (_ :: _) => ⟨200, "Multa marcada como paga", none⟩
       | .fail msg =>
         if isSchemaColumnError msg then tentarPagar upd rest (some msg)
         else ⟨500, "Erro ao marcar multa como paga", some msg⟩) := rfl

theorem tentarPagar_success (upd : List (String × String) → String → UpdResult)
    (pre : List (List (String × String) × String)) (c : List (String × String) × String)
    (post : List (List (String × String) × String)) (ultimo : Option String)
    (hpre : ∀ p ∈ pre, comboPulado (upd p.1 p.2) = true)
    (hc : ∃ r rs, upd c.1 c.2 = .ok (r :: rs)) :
    tentarPagar upd (pre ++ c :: post) ultimo = ⟨200, "Multa marcada como paga", none⟩ := by
  induction pre generalizing ultimo with
  | nil =>
    obtain ⟨r, rs, hr⟩ := hc
    obtain ⟨u, k⟩ := c
    rw [List.nil_append, tentarPagar_cons]
    simp only [hr]
  | cons p ps ih =>
    have hp := hpre p (List.mem_cons_self p ps)
    obtain ⟨u, k⟩ := p
    rw [List.cons_append, tentarPagar_cons]
    cases hu : upd u k with
    | ok rows =>
      cases rows with
      | nil =>
        simp only [hu]
        exact ih ultimo (fun q hq => hpre q (List.mem_cons_of_mem _ hq))
      | cons r rs => rfl
    | fail msg =>
      rw [hu] at hp
      simp only [comboPulado] at hp
      simp only [hu, if_pos hp]
      exact ih (some msg) (fun q hq => hpre q (List.mem_cons_of_mem _ hq))

theorem tentarPagar_hard_error (upd : List (String × String) → String → UpdResult)
    (pre : List (List (String × String) × String)) (c : List (String × String) × String)
    (post : List (List (String × String) × String)) (ultimo : Option String) (msg : String)
    (hpre : ∀ p ∈ pre, comboPulado (upd p.1 p.2) = true)
    (hc : upd c.1 c.2 = .fail msg) (hmsg : isSchemaColumnError msg = false) :
    tentarPagar upd (pre ++ c :: post) ultimo =
      ⟨500, "Erro ao marcar multa como paga", some msg⟩ := by
  induction pre generalizing ultimo with
  | nil =>
    obtain ⟨u, k⟩ := c
    rw [List.nil_append, tentarPagar_cons]
    simp only [hc, hmsg]
    simp
  | cons p ps ih =>
    have hp := hpre p (List.mem_cons_self p ps)
    obtain ⟨u, k⟩ := p
    rw [List.cons_append, tentarPagar_cons]
    cases hu : upd u k with
    | ok rows =>
      cases rows with
      | nil =>
        simp only [hu]
        exact ih ultimo (fun q hq => hpre q (List.mem_cons_of_mem _ hq))
      | cons r rs =>
        rw [hu] at hp
        simp [comboPulado] at hp
    | fail m =>
      rw [hu] at hp
      simp only [comboPulado] at hp
      simp only [hu, if_pos hp]
      exact ih (some m) (fun q hq => hpre q (List.mem_cons_of_mem _ hq))

theorem tentarPagar_all_empty (upd : List (String × String) → String → UpdResult)
    (combos : List (List (String × String) × String))
    (h : ∀ p ∈ combos, upd p.1 p.2 = .ok []) :
    tentarPagar upd combos none = ⟨404, "Multa não encontrada", none⟩ := by
  induction combos with
  | nil => rfl
  | cons p ps ih =>
    have hp := h p (List.mem_cons_self p ps)
    obtain ⟨u, k⟩ := p
    rw [tentarPagar_cons]
    simp only [hp]
    exact ih (fun q hq => h q (List.mem_cons_of_mem _ hq))

/-- C5: with a numeric id and a valid payment date, `PATCH /multas/:id/pagar`
walks the eight payload/id-column combinations in order; the first one that
completes without error and affects a row yields 200; the first error that is
not schema-shaped aborts with 500 carrying that error's message; and if every
combination completes without error but affects no row, the answer is 404. -/
theorem C5_patchMultasPagar_flow (id : String) (nid : Int) (dp : String)
    (upd : List (String × String) → String → UpdResult)
    (hid : jsNumberInt id = some nid) (hdp : validarData dp = true) :
    (∀ pre c post, combosPagar (formatarDataStr dp) = pre ++ c :: post →
      (∀ p ∈ pre, comboPulado (upd p.1 p.2) = true) →
      ((∃ r rs, upd c.1 c.2 = .ok (r :: rs)) →
        patchMultasPagar id (some dp) upd = ⟨200, "Multa marcada como paga", none⟩) ∧
      (∀ msg, upd c.1 c.2 = .fail msg → isSchemaColumnError msg = false →
        patchMultasPagar id (some dp) upd =
          ⟨500, "Erro ao marcar multa como paga", some msg⟩)) ∧
    ((∀ p ∈ combosPagar (formatarDataStr dp), upd p.1 p.2 = .ok []) →
      patchMultasPagar id (some dp) upd = ⟨404, "Multa não encontrada", none⟩) := by
  have hdpne : dp ≠ "" := by
    intro h
    rw [h] at hdp
    exact absurd hdp (by decide)
  have hcond : ¬(id = "" ∨ (jsNumberInt id).isNone = true) := by
    rintro (h | h)
    · rw [h] at hid
      cases hid
    · simp [hid] at h
  have hdate : (!optStrTruthy (some dp) || !validarData ((some dp).getD "")) = false := by
    simp [optStrTruthy, hdpne, hdp]
  have hrun : patchMultasPagar id (some dp) upd =
      tentarPagar upd (combosPagar (formatarDataStr dp)) none := by
    simp only [patchMultasPagar]
    rw [if_neg hcond, hdate]
    rfl
  constructor
  · intro pre c post hsplit hpre
    constructor
    · intro hc
      rw [hrun, hsplit]
      exact tentarPagar_success upd pre c post none hpre hc
    · intro msg hc hmsg
      rw [hrun, hsplit]
      exact tentarPagar_hard_error upd pre c post none msg hpre hc hmsg
  · intro hall
    rw [hrun]
    exact tentarPagar_all_empty upd _ hall

theorem C5_patchMultasPagar_flow_witness :
    patchMultasPagar "5" (some "01/03/2024")
        (fun _ k => if k = "MultaID"
          then UpdResult.fail "Could not find the 'DataPagamento' column of 'multa' in the schema cache"
          else UpdResult.ok ["multa5"]) =
      ⟨200, "Multa marcada como paga", none⟩ := by
  have h := ((C5_patchMultasPagar_flow "5" 5 "01/03/2024"
      (fun _ k => if k = "MultaID"
        then UpdResult.fail "Could not find the 'DataPagamento' column of 'multa' in the schema cache"
        else UpdResult.ok ["multa5"])
      (by decide) (by decide)).1
    [([("DataPagamento", "2024-03-01"), ("Status", "paga")], "MultaID")]
    ([("DataPagamento", "2024-03-01"), ("Status", "paga")], "multa_id")
    ([([("DataPagamento", "2024-03-01"), ("Status", "paga")], "id"),
      ([("DataPagamento", "2024-03-01"), ("Status", "paga")], "ID"),
      ([("data_pagamento", "2024-03-01"), ("status", "paga")], "MultaID"),
      ([("data_pagamento", "2024-03-01"), ("status", "paga")], "multa_id"),
      ([("data_pagamento", "2024-03-01"), ("status", "paga")], "id"),
      ([("data_pagamento", "2024-03-01"), ("status", "paga")], "ID")])
    (by decide) (by decide)).1 ⟨"multa5", [], by decide⟩
  exact h

/-! ## Fine query engine (`obterMultasFiltradas` and `GET /multas`,
part_001:2051-2220) -/

/-- A raw `multa` row as returned by `select('*')`: any of the alias columns
of either physical naming scheme may be present.  The monetary amount is kept
integral here; no filter inspects its value. -/
structure RawMulta where
  MultaID : Option Int
  multa_id : Option Int
  id : Option Int
  ID : Option Int
  PendenciaID : Option Int
  pendencia_id : Option Int
  ReservaID : Option Int
  reserva_id : Option Int
  reservaId : Option Int
  ClienteID : Option Int
  cliente_id : Option Int
  Valor : Option Int
  valor : Option Int
  DataVencimento : Option String
  data_vencimento : Option String
  DataEmissao : Option String
  data_multa : Option String
  data_emissao : Option String
  DataPagamento : Option String
  data_pagamento : Option String
  Status : Option String
  status : Option String
deriving DecidableEq, Repr

/-- The canonical shape produced by `normalizarMulta`: the original row plus
the canonical fields resolved through the alias priority chains. -/
structure NormMulta where
  raw : RawMulta
  MultaID : Option Int
  ReservaID : Option Int
  ClienteID : Option Int
  Valor : Option Int
  DataVencimento : Option String
  DataPagamento : Option String
  Status : Option String
deriving DecidableEq, Repr

/-- `normalizarMulta` (part_001:2051): resolve each canonical field through the
`??` alias chains of the source. -/
def normalizarMulta (m : RawMulta) : NormMulta where
  raw := m
  MultaID := m.MultaID <|> m.multa_id <|> m.id <|> m.ID
  ReservaID := m.PendenciaID <|> m.pendencia_id <|> m.ReservaID <|> m.reserva_id <|> m.reservaId
  ClienteID := m.ClienteID <|> m.cliente_id
  Valor := m.Valor <|> m.valor
  DataVencimento := m.DataVencimento <|> m.data_vencimento <|> m.DataEmissao <|>
    m.data_multa <|> m.data_emissao
  DataPagamento := m.DataPagamento <|> m.data_pagamento
  Status := m.Status <|> m.status

/-- The filters assembled by the `GET /multas` routes. -/
structure FiltrosMulta where
  clienteId : Option Int
  reservaId : Option Int
  status : Option String
  vencidas : Bool
  multaId : Option Int
deriving Repr

/-- `obterReservaIdsPorCliente` (part_001:1971): ids of the client's
reservations, falsy ids dropped (`.filter(Boolean)`). -/
def obterReservaIdsPorCliente (clienteId : Int) (st : Store) : List Int :=
  ((st.reservas.filter (fun r => decide (r.ClienteID = clienteId))).map
    (fun r => r.ReservaID)).filter (fun i => i != 0)

/-- The status-filter stage of `obterMultasFiltradas` (part_001:2107-2124):
`pendente` keeps rows with no payment date and status other than `paga`/`pago`;
`paga`/`pago` keeps rows with a payment date or one of those statuses; any
other status value leaves the rows untouched. -/
def filtrarStatus (status : Option String) (ms : List NormMulta) : List NormMulta :=
  match status with
  | none => ms
  | some s =>
    if s != "" then
      let sNorm := strToLower s
      if sNorm = "pendente" then
        ms.filter (fun m =>
          let stt := strToLower (m.Status.getD "")
          !(m.DataPagamento.getD "" != "") && stt != "paga" && stt != "pago")
      else if sNorm = "paga" ∨ sNorm = "pago" then
        ms.filter (fun m =>
          let stt := strToLower (m.Status.getD "")
          (m.DataPagamento.getD "" != "") || stt = "paga" || stt = "pago")
      else ms
    else ms

/-- The overdue-filter stage (part_001:2126-2135): unpaid, with a due date
whose `YYYY-MM-DD` prefix is strictly before today's. -/
def filtrarVencidas (vencidas : Bool) (hojeIso : String) (ms : List NormMulta) :
    List NormMulta :=
  if vencidas then
    ms.filter (fun m =>
      if m.DataPagamento.getD "" != "" then false
      else
        let dataBase := (strSplitOnChar 'T' (m.DataVencimento.getD "")).getD 0 ""
        dataBase != "" && decide (dataBase < hojeIso))
  else ms

/-- The enrichment attached to each fine by `enriquecerMultas`. -/
structure ReservaInfoEnr where
  ReservaID : Int
  ClienteID : Int
  DataRetirada : Option String
  DataPrevistaEntrega : Option String
  cliente : Option (String × String)
  livro : Option String
deriving DecidableEq, Repr

/-- `enriquecerMultas` (part_001:1906): attach the linked reservation (with
client name and book title) to each fine via batched lookups.  The JS builds
keyed Maps from the fetched rows; with primary-key ids this is the first
matching row, modelled by `find?`.  An empty id set short-circuits to the
un-enriched rows. -/
def enriquecerMultas (st : Store) (ms : List NormMulta) :
    List (NormMulta × Option ReservaInfoEnr) :=
  let reservaIds := (((ms.map (fun m => m.ReservaID)).filterMap (fun o => o)).filter
    (fun i => i != 0)).dedup
  if reservaIds = [] then ms.map (fun m => (m, none))
  else
    let reservas := st.reservas.filter (fun r => reservaIds.contains r.ReservaID)
    let clienteIds := ((reservas.map (fun r => r.ClienteID)).filter (fun i => i != 0)).dedup
    let livroIds := ((reservas.map (fun r => r.LivroID)).filter (fun i => i != 0)).dedup
    let clientes := st.clientes.filter (fun c => clienteIds.contains c.ClienteID)
    let livros := st.livros.filter (fun l => livroIds.contains l.LivroID)
    ms.map (fun m =>
      match m.ReservaID with
      | none => (m, none)
      | some rid =>
        match reservas.find? (fun r => decide (r.ReservaID = rid)) with
        | none => (m, none)
        | some r =>
          (m, some ⟨r.ReservaID, r.ClienteID, r.DataRetirada, r.DataPrevistaEntrega,
            (clientes.find? (fun c => decide (c.ClienteID = r.ClienteID))).map
              (fun c => (c.Nome, c.Sobrenome)),
            (livros.find? (fun l => decide (l.LivroID = r.LivroID))).map
              (fun l => l.NomeLivro)⟩))

/-- The sort comparator (part_001:2155): by due date when both rows have one,
else by numeric fine id. -/
def multaLE (a b : NormMulta) : Bool :=
  let da := a.DataVencimento.getD ""
  let db := b.DataVencimento.getD ""
  if da != "" && db != "" then decide (da ≤ db)
  else decide (a.MultaID.getD 0 ≤ b.MultaID.getD 0)

/-- `obterMultasFiltradas` (part_001:2085): fetch all raw rows, normalize,
filter by fine id, reservation id, status, overdue flag and client, sort, and
enrich.  The store itself never errors in this model, so the graceful
degradation `catch` around enrichment is not exercised. -/
def obterMultasFiltradas (filtros : FiltrosMulta) (hojeIso : String) (st : Store)
    (tabelaMulta : List RawMulta) : List (NormMulta × Option ReservaInfoEnr) :=
  let norm := tabelaMulta.map normalizarMulta
  let f1 := if optIntTruthy filtros.multaId then
      norm.filter (fun m => decide (m.MultaID.getD 0 = filtros.multaId.getD 0))
    else norm
  let f2 := if optIntTruthy filtros.reservaId then
      f1.filter (fun m => decide (m.ReservaID.getD 0 = filtros.reservaId.getD 0))
    else f1
  let f3 := filtrarStatus filtros.status f2
  let f4 := filtrarVencidas filtros.vencidas hojeIso f3
  let resultado : Option (List NormMulta) :=
    if optIntTruthy filtros.clienteId then
      let cid := filtros.clienteId.getD 0
      if f4.any (fun m => m.ClienteID.isSome) then
        some (f4.filter (fun m => decide (m.ClienteID.getD 0 = cid)))
      else
        let reservaIds := obterReservaIdsPorCliente cid st
        if reservaIds = [] then none
        else some (f4.filter (fun m => reservaIds.contains (m.ReservaID.getD 0)))
    else some f4
  match resultado with
  | none => []
  | some ms => enriquecerMultas st (ms.mergeSort multaLE)

/-- The `GET /multas` query string. -/
structure MultasQuery where
  status : Option String
  vencidas : Option String
  clienteId : Option String
  reservaId : Option String
  multaId : Option String
deriving Repr

/-- The id-parameter validation shared by the three id filters of
`GET /multas`: reject blank, non-numeric or non-positive values. -/
def validarParamId (raw : Option String) : Except Unit (Option Int) :=
  match raw with
  | none => .ok none
  | some s =>
    if s = "" ∨ (jsNumberInt s).isNone ∨ (jsNumberInt s).getD 0 ≤ 0 then .error ()
    else .ok (some ((jsNumberInt s).getD 0))

/-- The `GET /multas` handler (part_001:2176): parameter validation, filter
assembly, then the query engine; the body rows are the second component. -/
def getMultas (q : MultasQuery) (hojeIso : String) (st : Store)
    (tabelaMulta : List RawMulta) : Resp × List (NormMulta × Option ReservaInfoEnr) :=
  match validarParamId q.clienteId with
  | .error _ => (⟨400, "ID de cliente inválido", none⟩, [])
  | .ok cid =>
    match validarParamId q.reservaId with
    | .error _ => (⟨400, "ID de reserva inválido", none⟩, [])
    | .ok rid =>
      match validarParamId q.multaId with
      | .error _ => (⟨400, "ID da multa inválido", none⟩, [])
      | .ok mid =>
        let status : Option String := match q.status with
          | some s => if s != "" then some s else none
          | none => none
        let vencidas : Bool := match q.vencidas with
          | some v => strToLower v = "true"
          | none => false
        let filtros : FiltrosMulta := ⟨cid, rid, status, vencidas, mid⟩
        (⟨200, "Multas encontradas", none⟩, obterMultasFiltradas filtros hojeIso st tabelaMulta)

theorem filtrarStatus_other (s : String) (hs1 : strToLower s ≠ "pendente")
    (hs2 : strToLower s ≠ "paga") (hs3 : strToLower s ≠ "pago")
    (ms : List NormMulta) : filtrarStatus (some s) ms = ms := by
  have hor : ¬(strToLower s = "paga" ∨ strToLower s = "pago") := by
    rintro (h | h)
    · exact hs2 h
    · exact hs3 h
  by_cases hne : (s != "") = true
  · simp only [filtrarStatus, if_pos hne, if_neg hs1, if_neg hor]
  · simp only [filtrarStatus, if_neg hne]

theorem filtrarStatus_none (ms : List NormMulta) : filtrarStatus none ms = ms := rfl

/-- C8: a status filter whose lowercase form is none of `pendente`, `paga`,
`pago` applies no filtering at all: `GET /multas?status=cancelada` answers 200
with exactly the rows of the unfiltered query (every fine, not only cancelled
ones) — only the two recognized status classes ever narrow the result set. -/
theorem C8_unknown_status_no_filter (s hojeIso : String) (st : Store)
    (tab : List RawMulta)
    (hs1 : strToLower s ≠ "pendente") (hs2 : strToLower s ≠ "paga")
    (hs3 : strToLower s ≠ "pago") :
    getMultas ⟨some s, none, none, none, none⟩ hojeIso st tab =
      getMultas ⟨none, none, none, none, none⟩ hojeIso st tab ∧
    (getMultas ⟨some s, none, none, none, none⟩ hojeIso st tab).1.status = 200 ∧
    (getMultas ⟨none, none, none, none, none⟩ hojeIso st tab).2 =
      obterMultasFiltradas ⟨none, none, none, false, none⟩ hojeIso st tab := by
  refine ⟨?_, rfl, rfl⟩
  by_cases hse : s = ""
  · subst hse
    rfl
  · have hne : (s != "") = true := by simp [hse]
    simp [getMultas, validarParamId, obterMultasFiltradas, optIntTruthy, hne,
      filtrarStatus_other s hs1 hs2 hs3, filtrarStatus_none]

theorem C8_unknown_status_no_filter_witness :
    getMultas ⟨some "cancelada", none, none, none, none⟩ "2024-06-01"
        ⟨[], [], []⟩
        [{ MultaID := some 1, multa_id := none, id := none, ID := none,
           PendenciaID := none, pendencia_id := none, ReservaID := none,
           reserva_id := none, reservaId := none, ClienteID := none,
           cliente_id := none, Valor := some 10, valor := none,
           DataVencimento := some "2024-05-01", data_vencimento := none,
           DataEmissao := none, data_multa := none, data_emissao := none,
           DataPagamento := none, data_pagamento := none,
           Status := some "cancelada", status := none }] =
      getMultas ⟨none, none, none, none, none⟩ "2024-06-01" ⟨[], [], []⟩
        [{ MultaID := some 1, multa_id := none, id := none, ID := none,
           PendenciaID := none, pendencia_id := none, ReservaID := none,
           reserva_id := none, reservaId := none, ClienteID := none,
           cliente_id := none, Valor := some 10, valor := none,
           DataVencimento := some "2024-05-01", data_vencimento := none,
           DataEmissao := none, data_multa := none, data_emissao := none,
           DataPagamento := none, data_pagamento := none,
           Status := some "cancelada", status := none }] :=
  (C8_unknown_status_no_filter "cancelada" "2024-06-01" ⟨[], [], []⟩
    [{ MultaID := some 1, multa_id := none, id := none, ID := none,
       PendenciaID := none, pendencia_id := none, ReservaID := none,
       reserva_id := none, reservaId := none, ClienteID := none,
       cliente_id := none, Valor := some 10, valor := none,
       DataVencimento := some "2024-05-01", data_vencimento := none,
       DataEmissao := none, data_multa := none, data_emissao := none,
       DataPagamento := none, data_pagamento := none,
       Status := some "cancelada", status := none }]
    (by decide) (by decide) (by decide)).1

end Biblioteca
